import Mathlib

/-!
Verification of the payment-state and roster-synchronization core of the
tg_bot_checks repository (src/database.py, with src/google_sheets.py and
src/bot.py as context).

The Python code is shallowly embedded: every durable table row becomes a
structure, every SQL statement or Python block becomes a pure Lean function
on explicit state, and machine integers become Int/Nat (the columns involved
are INT/BIGINT and never near overflow in any claim).  Python float
arithmetic in the allocator is modelled over ℚ (exact rational arithmetic);
`int(x + 0.5)` is modelled as truncation toward zero of the rational value.
Timestamps (`time.time()`, `NOW()`) are modelled as natural numbers passed
explicitly.  `config.GEOM_SEQ_R` and `config.TTL` come from a config module
that is not part of the sources, so they are ordinary parameters `r` and
`ttl` of the embedded operations.
-/

namespace TgBot

/-- Python `int(q)` on a (nonnegative-or-negative) rational: truncation toward
zero, as performed by `int(... + 0.5)` in `get_user_data`
(src/database.py line 237). -/
def pyTrunc (q : ℚ) : ℤ := if 0 ≤ q then ⌊q⌋ else ⌈q⌉

/-- `geom_seq_a = total_sum * (1 - GEOM_SEQ_R) / (1 - GEOM_SEQ_R ** total_people)`
(src/database.py line 236).  The expression is only evaluated by the code
under the guard `total_people > 0`, so the exponent is `total_people.toNat`. -/
def geom_seq_a (total_people total_sum : ℤ) (r : ℚ) : ℚ :=
  (total_sum * (1 - r)) / (1 - r ^ total_people.toNat)

/-- The amount computation of `get_user_data` (src/database.py lines 234-239):
`if total_people > 0 and GEOM_SEQ_R != 1` then
`int(geom_seq_a * GEOM_SEQ_R ** count + 0.5)` else
`total_sum // max(total_people, 1)` (Python floor division = `Int.fdiv`). -/
def sum_to_pay_calc (count total_people total_sum : ℤ) (r : ℚ) : ℤ :=
  if 0 < total_people ∧ r ≠ 1 then
    pyTrunc (geom_seq_a total_people total_sum r * r ^ count.toNat + 1 / 2)
  else
    Int.fdiv total_sum (max total_people 1)

/-- Round-half-up to the nearest integer, as the spec words it
("round(a * r^order) — round-half-up to the nearest integer currency unit",
spec §4.3).  Spec-side definition, to be compared with the source-side
`sum_to_pay_calc`. -/
def roundHalfUp (q : ℚ) : ℤ := ⌊q + 1 / 2⌋

/-- One row of the `checks` table (src/database.py lines 44-54).
`count` is the 0-based assignment order. -/
structure CheckRow where
  chat_id : ℤ
  username : String
  count : ℤ
  total_people : ℤ
  sum_to_pay : ℤ
  check_link : Option String
  check_file_id : Option String
  first_seen_at : ℕ
  check_received_at : Option ℕ
deriving DecidableEq, Repr

/-- The single row of the `google_sheet_data` table
(src/database.py lines 56-64); the `CHECK (id = 1)` constraint makes it
unique, and `_setup` inserts it at boot, so the embedding keeps it as an
always-present value. -/
structure SheetRow where
  total_people : ℤ
  total_sum : ℤ
  people_usernames : List String
  paid_usernames : List String
  updated_at : ℕ
deriving DecidableEq, Repr

/-- The Python dict `sheet_data` flowing through the cache and
`get_user_data`.  `paid_usernames` is an `Option` because the dict built by
the background synchronizer (src/database.py line 123) has no
`paid_usernames` key, while the dict built from the durable row
(lines 185-190) has one; `get_user_data` reads it with
`.get("paid_usernames", [])`. -/
structure SheetData where
  total_people : ℤ
  total_sum : ℤ
  column_A_list : List String
  paid_usernames : Option (List String)
deriving DecidableEq, Repr

/-- The mutable state of `AsyncDatabase`: the two durable tables plus the
in-memory cache pair `(_sheet_cache, _cache_timestamp)`
(src/database.py lines 14-16). -/
structure DBState where
  checks : List CheckRow
  sheet : SheetRow
  sheet_cache : Option SheetData
  cache_timestamp : ℕ
deriving DecidableEq, Repr

/-- `SELECT ... FROM checks WHERE chat_id = %s` (the `chat_id` column is the
primary key). -/
def findCheck (checks : List CheckRow) (chat_id : ℤ) : Option CheckRow :=
  checks.find? fun row => row.chat_id == chat_id

/-- `MAX(count)` over the `checks` table, with SQL `NULL` (empty table)
represented by the `COALESCE` default `-1` already folded in. -/
def maxCount (checks : List CheckRow) : ℤ :=
  checks.foldr (fun row m => max row.count m) (-1)

/-- `SELECT COALESCE(MAX(count), -1) + 1 FROM checks`
(src/database.py line 231): the next dense order value. -/
def nextCount (checks : List CheckRow) : ℤ := maxCount checks + 1

/-- The row written by
`INSERT INTO checks (chat_id, username, count, total_people, sum_to_pay)`
(src/database.py lines 242-248); the remaining columns take their schema
defaults (`first_seen_at DEFAULT CURRENT_TIMESTAMP`, the rest NULL). -/
def mkCheckRow (chat_id : ℤ) (username : String) (count total_people sum_to_pay : ℤ)
    (now : ℕ) : CheckRow :=
  { chat_id := chat_id, username := username, count := count,
    total_people := total_people, sum_to_pay := sum_to_pay,
    check_link := none, check_file_id := none,
    first_seen_at := now, check_received_at := none }

/-- The 5-tuple returned by `get_user_data`:
`(sum_to_pay, count, total_people, total_sum, paid)`, every component
`None`-able (src/database.py line 217 returns five `None`s). -/
structure UserDataResult where
  sum_to_pay : Option ℤ
  count : Option ℤ
  total_people : Option ℤ
  total_sum : Option ℤ
  paid : Option Bool
deriving DecidableEq, Repr

/-- The all-`None` tuple returned when the username is not on the roster. -/
def noneResult : UserDataResult :=
  { sum_to_pay := none, count := none, total_people := none,
    total_sum := none, paid := none }

/-- The body of `get_user_data` after the sheet snapshot has been obtained
(src/database.py lines 210-250), with the snapshot passed explicitly.
This is the get-or-create operation: membership screen, lookup by
`chat_id`, and on a miss the `COALESCE(MAX(count), -1) + 1` read followed by
the `INSERT`.  Returns the result tuple and the new `checks` table. -/
def get_user_data_core (sheet_data : SheetData) (checks : List CheckRow)
    (chat_id : ℤ) (username : String) (r : ℚ) (now : ℕ) :
    UserDataResult × List CheckRow :=
  let total_people := sheet_data.total_people
  let total_sum := sheet_data.total_sum
  let paid_usernames := sheet_data.paid_usernames.getD []
  if username ∈ sheet_data.column_A_list then
    let paid := username ∈ paid_usernames
    match findCheck checks chat_id with
    | some existing =>
        ({ sum_to_pay := some existing.sum_to_pay, count := some existing.count,
           total_people := some total_people, total_sum := some total_sum,
           paid := some paid }, checks)
    | none =>
        let count := nextCount checks
        let sum_to_pay := sum_to_pay_calc count total_people total_sum r
        ({ sum_to_pay := some sum_to_pay, count := some count,
           total_people := some total_people, total_sum := some total_sum,
           paid := some paid },
         checks ++ [mkCheckRow chat_id username count total_people sum_to_pay now])
  else
    (noneResult, checks)

/-- The dict built from the durable row by `_get_cached_sheet_data`
(src/database.py lines 185-190): all four keys present. -/
def sheetDataOfRow (s : SheetRow) : SheetData :=
  { total_people := s.total_people, total_sum := s.total_sum,
    column_A_list := s.people_usernames, paid_usernames := some s.paid_usernames }

/-- `_get_cached_sheet_data` (src/database.py lines 168-196): serve the
in-memory dict when it exists and `now - _cache_timestamp < ttl`, otherwise
reload from the durable row and refresh the cache pair.  The durable row
always exists (see `SheetRow`), so the result is total. -/
def _get_cached_sheet_data (st : DBState) (ttl now : ℕ) : SheetData × DBState :=
  match st.sheet_cache with
  | some c =>
      if now - st.cache_timestamp < ttl then (c, st)
      else
        let d := sheetDataOfRow st.sheet
        (d, { st with sheet_cache := some d, cache_timestamp := now })
  | none =>
      let d := sheetDataOfRow st.sheet
      (d, { st with sheet_cache := some d, cache_timestamp := now })

/-- The cache invalidation performed by `insert_check_link`
(src/database.py line 285): `self._cache_timestamp = 0`. -/
def invalidate (st : DBState) : DBState := { st with cache_timestamp := 0 }

/-- `get_user_data` (src/database.py lines 198-250): cache resolution
followed by the get-or-create body. -/
def get_user_data (st : DBState) (ttl now : ℕ) (chat_id : ℤ) (username : String)
    (r : ℚ) : UserDataResult × DBState :=
  let fetched := _get_cached_sheet_data st ttl now
  let run := get_user_data_core fetched.1 fetched.2.checks chat_id username r now
  (run.1, { fetched.2 with checks := run.2 })

/-- The `CASE WHEN NOT (%s = ANY(paid_usernames)) THEN array_append(...)
ELSE paid_usernames END` expression of `insert_check_link`
(src/database.py lines 260-264). -/
def paidAppend (paid : List String) (username : String) : List String :=
  if username ∈ paid then paid else paid ++ [username]

/-- `insert_check_link` (src/database.py lines 252-287).  The statement is a
single SQL command with two data-modifying CTEs; in PostgreSQL a
data-modifying CTE executes exactly once per statement whether or not the
primary query reads from it, so the `google_sheet_data` update (the
`paidAppend`) happens even when no `checks` row matches `chat_id`.  The
primary query joins `updated_check` with a sub-select of the pre-statement
`checks` row, so it yields a row exactly when the `chat_id` exists; on
`None` the Python returns early and the cache invalidation on line 285 is
skipped. -/
def insert_check_link (st : DBState) (chat_id : ℤ)
    (username check_link check_file_id : String) (now : ℕ) :
    (Option ℤ × Option ℤ × Option ℕ) × DBState :=
  let sheet' := { st.sheet with paid_usernames := paidAppend st.sheet.paid_usernames username }
  match findCheck st.checks chat_id with
  | none => ((none, none, none), { st with sheet := sheet' })
  | some row =>
      let checks' := st.checks.map fun c =>
        if c.chat_id == chat_id then
          { c with check_link := some check_link, check_file_id := some check_file_id,
                   check_received_at := some now }
        else c
      ((some row.count, some row.sum_to_pay, some (now - row.first_seen_at)),
       { st with checks := checks', sheet := sheet', cache_timestamp := 0 })

/-- `_update_sheet_data` (src/database.py lines 153-166):
`UPDATE google_sheet_data SET total_people, total_sum, people_usernames,
updated_at = NOW() WHERE id = 1` — exactly these four columns are assigned. -/
def _update_sheet_data (s : SheetRow) (total_people total_sum : ℤ)
    (column_A_list : List String) (now : ℕ) : SheetRow :=
  { s with total_people := total_people, total_sum := total_sum,
           people_usernames := column_A_list, updated_at := now }

/-- The dict returned by `google_sheets.fetch_list`
(src/google_sheets.py lines 80-84): each of the three values may be absent
(`None`) when the corresponding sheet range is missing or malformed. -/
structure FetchPayload where
  column_A_list : Option (List String)
  total_people : Option ℤ
  total_sum : Option ℤ
deriving DecidableEq, Repr

/-- `_is_valid_sheet_data` (src/database.py lines 144-151): the dict is valid
when `column_A_list` is not `None` and `total_people`, `total_sum` are ints. -/
def _is_valid_sheet_data (d : FetchPayload) : Bool :=
  d.column_A_list.isSome && d.total_people.isSome && d.total_sum.isSome

/-- The loop-local state of `_sync_google_sheets` together with the
`_error_count` attribute read by `getattr(self, '_error_count', 0)`
(src/database.py line 139).  No statement anywhere in the class ever assigns
`_error_count`, and `__init__` does not create it, so the attribute is
modelled as an `Option` that starts as `none` and that no transition
writes. -/
structure SyncState where
  prev_data_hash : Option ℤ
  error_count_attr : Option ℕ
deriving DecidableEq, Repr

/-- What one iteration of the `while` loop of `_sync_google_sheets` observes:
either `fetch_list` returned (its payload plus the value of
`hash(str(google_sheet_data))`, modelled as an opaque integer), or some
exception was raised during the fetch or the write. -/
inductive SyncEvent
  | fetched (d : Option FetchPayload) (h : ℤ)
  | raised
deriving DecidableEq

/-- How the iteration ends: the normal `wait_for(..., timeout=TTL)` sleep, or
the `except` branch's backoff sleep of the given number of seconds.  In both
cases the loop continues (the `except Exception` handler swallows the
error). -/
inductive SyncAction
  | sleep_ttl
  | sleep_backoff (secs : ℕ)
deriving DecidableEq, Repr

/-- The sleep length of the `except` branch (src/database.py line 139):
`min(60, 5 * 2 ** min(3, getattr(self, '_error_count', 0)))`. -/
def backoff_secs (error_count_attr : Option ℕ) : ℕ :=
  min 60 (5 * 2 ^ min 3 (error_count_attr.getD 0))

/-- One iteration of the `_sync_google_sheets` loop body
(src/database.py lines 112-139), abstracting the durable write itself (the
written data is covered by `_update_sheet_data`): on a valid fetched payload
whose hash differs from `prev_data_hash` the new hash is remembered; on an
exception the backoff sleep runs and the loop continues.  No branch assigns
`_error_count`. -/
def sync_cycle (st : SyncState) (ev : SyncEvent) : SyncState × SyncAction :=
  match ev with
  | .raised => (st, .sleep_backoff (backoff_secs st.error_count_attr))
  | .fetched d h =>
      match d with
      | some data =>
          if _is_valid_sheet_data data then
            if st.prev_data_hash ≠ some h then
              ({ st with prev_data_hash := some h }, .sleep_ttl)
            else (st, .sleep_ttl)
          else (st, .sleep_ttl)
      | none => (st, .sleep_ttl)

/-- The loop state at entry: `prev_data_hash = None` (src/database.py
line 109) and no `_error_count` attribute. -/
def sync_init : SyncState := { prev_data_hash := none, error_count_attr := none }

/-- The loop state after a sequence of iterations. -/
def sync_run (evs : List SyncEvent) : SyncState :=
  evs.foldl (fun s e => (sync_cycle s e).1) sync_init

/-!
Interleaving model for the dense-order race (claim C1).

`_setup` puts the connection in autocommit mode (src/database.py line 38),
so the `SELECT COALESCE(MAX(count), -1) + 1` and the subsequent `INSERT` of
`get_user_data` are two separate single-statement transactions, and each
`await cursor.execute(...)` is a suspension point at which another task's
statement can run.  For two first-time callers with distinct fresh chat ids
the initial existence lookups always miss regardless of order, so a run of
the two calls is any interleaving of the four remaining statements in which
each caller's SELECT precedes its INSERT.
-/

/-- The four racing statements: caller 1's and caller 2's order-determining
SELECT and INSERT. -/
inductive RaceStep
  | sel1
  | sel2
  | ins1
  | ins2
deriving DecidableEq, Repr

/-- Shared database table plus each caller's fetched `count` value. -/
structure RaceState where
  table : List CheckRow
  read1 : Option ℤ
  read2 : Option ℤ
deriving DecidableEq, Repr

/-- Effect of one statement.  The SELECT stores `nextCount` of the current
table in the caller's local variable; the INSERT adds the row built from the
caller's previously read count, exactly as `get_user_data` builds it. -/
def raceStep (sd : SheetData) (r : ℚ) (chat1 chat2 : ℤ) (user1 user2 : String)
    (now : ℕ) : RaceState → RaceStep → RaceState
  | st, .sel1 => { st with read1 := some (nextCount st.table) }
  | st, .sel2 => { st with read2 := some (nextCount st.table) }
  | st, .ins1 =>
      match st.read1 with
      | some c =>
          { st with table := st.table ++
              [mkCheckRow chat1 user1 c sd.total_people
                (sum_to_pay_calc c sd.total_people sd.total_sum r) now] }
      | none => st
  | st, .ins2 =>
      match st.read2 with
      | some c =>
          { st with table := st.table ++
              [mkCheckRow chat2 user2 c sd.total_people
                (sum_to_pay_calc c sd.total_people sd.total_sum r) now] }
      | none => st

/-- Run a schedule of statements. -/
def runSchedule (sd : SheetData) (r : ℚ) (chat1 chat2 : ℤ) (user1 user2 : String)
    (now : ℕ) (sched : List RaceStep) (st : RaceState) : RaceState :=
  sched.foldl (raceStep sd r chat1 chat2 user1 user2 now) st

/-- A schedule is a legal concurrent execution of the two calls when it runs
each of the four statements once and each caller's SELECT comes before its
INSERT. -/
def isInterleaving (sched : List RaceStep) : Prop :=
  sched.Perm [RaceStep.sel1, RaceStep.ins1, RaceStep.sel2, RaceStep.ins2] ∧
  sched.indexOf RaceStep.sel1 < sched.indexOf RaceStep.ins1 ∧
  sched.indexOf RaceStep.sel2 < sched.indexOf RaceStep.ins2

/-!  Helper lemmas shared by the claim theorems.  -/

theorem pyTrunc_eq_floor (q : ℚ) (h : 0 ≤ q) : pyTrunc q = ⌊q⌋ := by
  simp [pyTrunc, h]

theorem geom_seq_a_nonneg (total_people total_sum : ℤ) (r : ℚ)
    (htp : 0 < total_people) (hts : 0 ≤ total_sum) (h0 : 0 < r) (h1 : r < 1) :
    0 ≤ geom_seq_a total_people total_sum r := by
  have hpow : r ^ total_people.toNat < 1 :=
    pow_lt_one₀ h0.le h1 (by omega)
  apply div_nonneg
  · have : (0 : ℚ) ≤ (total_sum : ℚ) := by exact_mod_cast hts
    nlinarith
  · linarith

theorem maxCount_append_singleton (t : List CheckRow) (row : CheckRow) :
    maxCount (t ++ [row]) = max row.count (maxCount t) := by
  unfold maxCount
  rw [List.foldr_append]
  simp only [List.foldr_cons, List.foldr_nil]
  induction t with
  | nil => rfl
  | cons x xs ih => simp only [List.foldr_cons, ih, max_left_comm]

theorem nextCount_append_self (t : List CheckRow) (row : CheckRow)
    (h : row.count = nextCount t) :
    nextCount (t ++ [row]) = nextCount t + 1 := by
  unfold nextCount at *
  rw [maxCount_append_singleton, h,
    max_eq_left (by omega : maxCount t ≤ maxCount t + 1)]

theorem findCheck_append_self (t : List CheckRow) (row : CheckRow)
    (h : findCheck t row.chat_id = none) :
    findCheck (t ++ [row]) row.chat_id = some row := by
  unfold findCheck at *
  rw [List.find?_append, h]
  simp [List.find?]

theorem insert_check_link_paid (st : DBState) (chat_id : ℤ)
    (username check_link check_file_id : String) (now : ℕ) :
    ((insert_check_link st chat_id username check_link check_file_id now).2).sheet.paid_usernames =
      paidAppend st.sheet.paid_usernames username := by
  rcases hf : findCheck st.checks chat_id with _ | row <;>
    simp [insert_check_link, hf]

theorem mem_paidAppend_self (l : List String) (u : String) : u ∈ paidAppend l u := by
  by_cases hm : u ∈ l <;> simp [paidAppend, hm]

theorem count_paidAppend_self (l : List String) (u : String) (h : l.count u ≤ 1) :
    (paidAppend l u).count u = 1 := by
  by_cases hm : u ∈ l
  · have hpos : 0 < l.count u := List.count_pos_iff.mpr hm
    simp [paidAppend, hm]
    omega
  · have hz : l.count u = 0 := List.count_eq_zero.mpr hm
    simp [paidAppend, hm, List.count_append, hz]

theorem sync_cycle_error_count (s : SyncState) (e : SyncEvent) :
    ((sync_cycle s e).1).error_count_attr = s.error_count_attr := by
  cases e with
  | raised => rfl
  | fetched d h =>
      cases d with
      | none => rfl
      | some data =>
          by_cases hv : _is_valid_sheet_data data = true
          · by_cases hh : s.prev_data_hash ≠ some h <;> simp [sync_cycle, hv, hh]
          · simp [sync_cycle, hv]

/-!  Claim theorems.  -/

unseal Rat.mul Rat.inv Rat.add Rat.sub in
/-- Claim C4: with `total_participants > 0` and `0 < r < 1` (the configured
decay regime, `decay_ratio ≠ 1`) and a nonnegative total, the allocator
returns round-half-up of `a * r^order` with
`a = total_amount * (1 - r) / (1 - r^total_participants)`; with
`total_participants ≤ 0` or `r = 1` it returns
`total_amount // max(total_participants, 1)`; and for
`total_participants = 3`, `total_amount = 600`, `r = 1/2` the shares at
orders 0, 1, 2 are 343, 171, 86. -/
theorem C4_allocator_formula (count total_people total_sum : ℤ) (r : ℚ) :
    (0 < total_people → 0 ≤ count → 0 < r → r < 1 → 0 ≤ total_sum →
      sum_to_pay_calc count total_people total_sum r =
        roundHalfUp (geom_seq_a total_people total_sum r * r ^ count.toNat)) ∧
    (total_people ≤ 0 ∨ r = 1 →
      sum_to_pay_calc count total_people total_sum r =
        Int.fdiv total_sum (max total_people 1)) ∧
    (sum_to_pay_calc 0 3 600 (1 / 2) = 343 ∧
     sum_to_pay_calc 1 3 600 (1 / 2) = 171 ∧
     sum_to_pay_calc 2 3 600 (1 / 2) = 86) := by
  refine ⟨?_, ?_, by decide, by decide, by decide⟩
  · intro htp hc h0 h1 hts
    have hne : r ≠ 1 := ne_of_lt h1
    rw [sum_to_pay_calc, if_pos ⟨htp, hne⟩, roundHalfUp]
    apply pyTrunc_eq_floor
    have ha := geom_seq_a_nonneg total_people total_sum r htp hts h0 h1
    have hp : (0 : ℚ) ≤ r ^ count.toNat := pow_nonneg h0.le _
    nlinarith
  · intro h
    rw [sum_to_pay_calc, if_neg]
    rintro ⟨hp, hr⟩
    rcases h with h | h
    · omega
    · exact hr h

unseal Rat.mul Rat.inv Rat.add Rat.sub in
/-- Witness for C4 at `count = 1`, `total_participants = 3`,
`total_amount = 600`, `r = 1/2` (decay branch) and at
`total_participants = 0` (equal-split fallback). -/
theorem C4_allocator_formula_witness :
    sum_to_pay_calc 1 3 600 (1 / 2) =
      roundHalfUp (geom_seq_a 3 600 (1 / 2) * (1 / 2 : ℚ) ^ (1 : ℤ).toNat) ∧
    sum_to_pay_calc 4 0 600 (1 / 2) = Int.fdiv 600 (max 0 1) :=
  ⟨(C4_allocator_formula 1 3 600 (1 / 2)).1 (by decide) (by decide) (by decide)
      (by decide) (by decide),
   (C4_allocator_formula 4 0 600 (1 / 2)).2.1 (Or.inl (by decide))⟩

/-- Claim C8: for `total_participants > 0` and `total_amount ≥ 0`, the
allocated amount is non-increasing in the order when `0 < r < 1`, and equal
across all orders when `r = 1` (equal-split fallback). -/
theorem C8_monotone (total_people total_sum count : ℤ) (r : ℚ)
    (htp : 0 < total_people) (hts : 0 ≤ total_sum) (hc : 0 ≤ count) :
    (0 < r → r < 1 →
      sum_to_pay_calc (count + 1) total_people total_sum r ≤
        sum_to_pay_calc count total_people total_sum r) ∧
    (r = 1 → ∀ c1 c2 : ℤ,
      sum_to_pay_calc c1 total_people total_sum r =
        sum_to_pay_calc c2 total_people total_sum r) := by
  constructor
  · intro h0 h1
    have hne : r ≠ 1 := ne_of_lt h1
    rw [sum_to_pay_calc, sum_to_pay_calc, if_pos ⟨htp, hne⟩, if_pos ⟨htp, hne⟩]
    have ha := geom_seq_a_nonneg total_people total_sum r htp hts h0 h1
    have hp : (0 : ℚ) ≤ r ^ count.toNat := pow_nonneg h0.le _
    have hp1 : (0 : ℚ) ≤ r ^ (count + 1).toNat := pow_nonneg h0.le _
    have htn : (count + 1).toNat = count.toNat + 1 := by omega
    have hstep : r ^ (count + 1).toNat ≤ r ^ count.toNat := by
      rw [htn, pow_succ]
      exact mul_le_of_le_one_right hp h1.le
    rw [pyTrunc_eq_floor _ (by nlinarith), pyTrunc_eq_floor _ (by nlinarith)]
    apply Int.floor_le_floor
    have := mul_le_mul_of_nonneg_left hstep ha
    linarith
  · intro hr c1 c2
    have hiff : ¬(0 < total_people ∧ r ≠ 1) := by
      rintro ⟨_, hne⟩; exact hne hr
    rw [sum_to_pay_calc, sum_to_pay_calc, if_neg hiff, if_neg hiff]

unseal Rat.mul Rat.inv Rat.add Rat.sub in
/-- Witness for C8 at `total_participants = 3`, `total_amount = 600`,
`count = 0`, with `r = 1/2` (decay branch) and `r = 1` (equal split). -/
theorem C8_monotone_witness :
    sum_to_pay_calc (0 + 1) 3 600 (1 / 2) ≤ sum_to_pay_calc 0 3 600 (1 / 2) ∧
    sum_to_pay_calc 5 3 600 1 = sum_to_pay_calc 2 3 600 1 :=
  ⟨(C8_monotone 3 600 0 (1 / 2) (by decide) (by decide) (by decide)).1
      (by decide) (by decide),
   (C8_monotone 3 600 0 1 (by decide) (by decide) (by decide)).2 rfl 5 2⟩

/-- Claim C9: the durable roster update performed by the background
synchronizer assigns exactly the columns `total_people`, `total_sum`,
`people_usernames`, `updated_at`, and leaves `paid_usernames` unchanged. -/
theorem C9_sync_write_frame (s : SheetRow) (total_people total_sum : ℤ)
    (column_A_list : List String) (now : ℕ) :
    (_update_sheet_data s total_people total_sum column_A_list now).paid_usernames =
      s.paid_usernames ∧
    _update_sheet_data s total_people total_sum column_A_list now =
      { total_people := total_people, total_sum := total_sum,
        people_usernames := column_A_list, paid_usernames := s.paid_usernames,
        updated_at := now } :=
  ⟨rfl, rfl⟩

/-- Claim C10: when the username is not in the roster snapshot's participant
list, `get_user_data` returns the all-`None` tuple and leaves the `checks`
table unchanged, whatever rows (including one for the same `chat_id`) it
already holds. -/
theorem C10_unknown_username (sheet_data : SheetData) (checks : List CheckRow)
    (chat_id : ℤ) (username : String) (r : ℚ) (now : ℕ)
    (h : username ∉ sheet_data.column_A_list) :
    get_user_data_core sheet_data checks chat_id username r now =
      (noneResult, checks) := by
  simp [get_user_data_core, h]

/-- Witness for C10: a username absent from the roster list, with an
Assignment row already present for the same `chat_id`. -/
theorem C10_unknown_username_witness :
    "bob" ∉ (["alice"] : List String) ∧
    get_user_data_core ⟨2, 100, ["alice"], some []⟩
        [mkCheckRow 7 "bob" 0 2 50 0] 7 "bob" 1 5 =
      (noneResult, [mkCheckRow 7 "bob" 0 2 50 0]) :=
  ⟨by decide,
   C10_unknown_username ⟨2, 100, ["alice"], some []⟩
     [mkCheckRow 7 "bob" 0 2 50 0] 7 "bob" 1 5 (by decide)⟩

/-- Claim C6 (evidence for the code bug): the `except` branch of the
synchronizer catches the exception and continues the loop, but its sleep is
`min(60, 5 * 2 ** min(3, getattr(self, '_error_count', 0)))` with
`_error_count` never assigned anywhere, so after any history of iterations —
in particular after any number of consecutive errors — the backoff sleep is
the constant 5 seconds: the base delay never doubles. -/
theorem C6_backoff_constant (evs : List SyncEvent) :
    (sync_run evs).error_count_attr = none ∧
    (sync_cycle (sync_run evs) SyncEvent.raised).2 = SyncAction.sleep_backoff 5 := by
  have hnone : (sync_run evs).error_count_attr = none := by
    have key : ∀ s : SyncState,
        (evs.foldl (fun s e => (sync_cycle s e).1) s).error_count_attr =
          s.error_count_attr := by
      induction evs with
      | nil => intro s; rfl
      | cons e es ih =>
          intro s
          rw [List.foldl_cons, ih, sync_cycle_error_count]
    exact key sync_init
  refine ⟨hnone, ?_⟩
  simp [sync_cycle, backoff_secs, hnone]

/-- Counterexample to claim C1 as stated: the schedule in which both callers
run their order-determining SELECT before either INSERT is a legal
interleaving of the two autocommit statement pairs, and under it both
first-time callers (distinct fresh chat ids 10 and 20, usernames on the
roster) receive the same order 0 — the orders are neither distinct nor
dense. -/
theorem C1_race_counterexample :
    isInterleaving [RaceStep.sel1, RaceStep.sel2, RaceStep.ins1, RaceStep.ins2] ∧
    (runSchedule ⟨2, 100, ["alice", "bob"], some []⟩ 1 10 20 "alice" "bob" 0
        [RaceStep.sel1, RaceStep.sel2, RaceStep.ins1, RaceStep.ins2]
        ⟨[], none, none⟩).read1 = some 0 ∧
    (runSchedule ⟨2, 100, ["alice", "bob"], some []⟩ 1 10 20 "alice" "bob" 0
        [RaceStep.sel1, RaceStep.sel2, RaceStep.ins1, RaceStep.ins2]
        ⟨[], none, none⟩).read2 = some 0 := by
  refine ⟨⟨?_, ?_, ?_⟩, ?_, ?_⟩ <;> decide

/-- Claim C1, amended: the order determination and the insert are separate
autocommit statements, not one serializable operation, so an interleaving of
two concurrent first-time calls can assign the same order (see the
counterexample); when the two calls do not interleave — the second starts
after the first's insert — they receive distinct, dense (consecutive)
orders, from any starting table. -/
theorem C1_serial_dense (sd : SheetData) (r : ℚ) (chat1 chat2 : ℤ)
    (user1 user2 : String) (now : ℕ) (t : List CheckRow) :
    (runSchedule sd r chat1 chat2 user1 user2 now
        [RaceStep.sel1, RaceStep.ins1, RaceStep.sel2, RaceStep.ins2]
        ⟨t, none, none⟩).read1 = some (nextCount t) ∧
    (runSchedule sd r chat1 chat2 user1 user2 now
        [RaceStep.sel1, RaceStep.ins1, RaceStep.sel2, RaceStep.ins2]
        ⟨t, none, none⟩).read2 = some (nextCount t + 1) := by
  have hrow : (mkCheckRow chat1 user1 (nextCount t) sd.total_people
      (sum_to_pay_calc (nextCount t) sd.total_people sd.total_sum r) now).count =
        nextCount t := rfl
  simp [runSchedule, raceStep, nextCount_append_self _ _ hrow]

/-- Counterexample to claim C2 as stated: if the roster snapshot passed the
second time no longer lists the username, the second call returns the
all-`None` tuple rather than the stored order and amount. -/
theorem C2_counterexample :
    (get_user_data_core ⟨1, 100, [], some []⟩
        (get_user_data_core ⟨1, 100, ["alice"], some []⟩ [] 7 "alice" 1 0).2
        7 "alice" 1 1).1.count ≠
      (get_user_data_core ⟨1, 100, ["alice"], some []⟩ [] 7 "alice" 1 0).1.count ∧
    (get_user_data_core ⟨1, 100, ["alice"], some []⟩ [] 7 "alice" 1 0).1.count =
      some 0 := by
  constructor <;> decide

/-- Claim C2, amended: as long as the username stays on the roster list of
the snapshot supplied to the second call, a second `get_or_create` with the
same participant key returns the same `order` and the same `amount_due` as
the first call — whatever else the second snapshot holds — and inserts
nothing: the amount is fixed at creation and never recomputed. -/
theorem C2_get_or_create_idempotent (s1 s2 : SheetData) (checks : List CheckRow)
    (chat_id : ℤ) (username : String) (r : ℚ) (n1 n2 : ℕ)
    (h1 : username ∈ s1.column_A_list) (h2 : username ∈ s2.column_A_list) :
    (get_user_data_core s2 (get_user_data_core s1 checks chat_id username r n1).2
        chat_id username r n2).1.count =
      (get_user_data_core s1 checks chat_id username r n1).1.count ∧
    (get_user_data_core s2 (get_user_data_core s1 checks chat_id username r n1).2
        chat_id username r n2).1.sum_to_pay =
      (get_user_data_core s1 checks chat_id username r n1).1.sum_to_pay ∧
    (get_user_data_core s2 (get_user_data_core s1 checks chat_id username r n1).2
        chat_id username r n2).2 =
      (get_user_data_core s1 checks chat_id username r n1).2 := by
  rcases hfind : findCheck checks chat_id with _ | ex
  · have key := findCheck_append_self checks
      (mkCheckRow chat_id username (nextCount checks) s1.total_people
        (sum_to_pay_calc (nextCount checks) s1.total_people s1.total_sum r) n1)
      hfind
    simp only [mkCheckRow] at key
    simp [get_user_data_core, h1, h2, hfind, key, mkCheckRow]
  · simp [get_user_data_core, h1, h2, hfind]

/-- Witness for C2: two different snapshots that both list the username,
starting from an empty table. -/
theorem C2_get_or_create_idempotent_witness :
    "alice" ∈ (["alice"] : List String) ∧
    "alice" ∈ (["zed", "alice"] : List String) ∧
    ((get_user_data_core ⟨3, 999, ["zed", "alice"], some ["alice"]⟩
        (get_user_data_core ⟨1, 100, ["alice"], some []⟩ [] 7 "alice" 1 0).2
        7 "alice" 1 9).1.count =
      (get_user_data_core ⟨1, 100, ["alice"], some []⟩ [] 7 "alice" 1 0).1.count ∧
    (get_user_data_core ⟨3, 999, ["zed", "alice"], some ["alice"]⟩
        (get_user_data_core ⟨1, 100, ["alice"], some []⟩ [] 7 "alice" 1 0).2
        7 "alice" 1 9).1.sum_to_pay =
      (get_user_data_core ⟨1, 100, ["alice"], some []⟩ [] 7 "alice" 1 0).1.sum_to_pay ∧
    (get_user_data_core ⟨3, 999, ["zed", "alice"], some ["alice"]⟩
        (get_user_data_core ⟨1, 100, ["alice"], some []⟩ [] 7 "alice" 1 0).2
        7 "alice" 1 9).2 =
      (get_user_data_core ⟨1, 100, ["alice"], some []⟩ [] 7 "alice" 1 0).2) :=
  ⟨by decide, by decide,
   C2_get_or_create_idempotent ⟨1, 100, ["alice"], some []⟩
     ⟨3, 999, ["zed", "alice"], some ["alice"]⟩ [] 7 "alice" 1 0 9
     (by decide) (by decide)⟩

/-- Counterexample to claim C3 as stated: on an unknown participant key the
call returns the NotFound triple, yet the durable roster row is mutated —
the username is appended to the paid set. -/
theorem C3_counterexample :
    (insert_check_link ⟨[], ⟨0, 0, [], [], 0⟩, none, 0⟩ 1 "alice" "url" "fid" 0).1 =
      (none, none, none) ∧
    (insert_check_link ⟨[], ⟨0, 0, [], [], 0⟩, none, 0⟩ 1 "alice" "url" "fid"
        0).2.sheet.paid_usernames ≠
      (⟨[], ⟨0, 0, [], [], 0⟩, none, 0⟩ : DBState).sheet.paid_usernames := by
  constructor <;> decide

/-- Claim C3, amended: `mark_submitted` on a participant key with no
Assignment row returns `NotFound` and leaves the `checks` table, the cache
pair, and every roster column except `paid_usernames` unchanged — but the
data-modifying CTE still appends the username to the roster's paid set when
it is absent (PostgreSQL executes a data-modifying CTE exactly once per
statement, whether or not the primary query reads it). -/
theorem C3_notfound (st : DBState) (chat_id : ℤ)
    (username check_link check_file_id : String) (now : ℕ)
    (h : findCheck st.checks chat_id = none) :
    (insert_check_link st chat_id username check_link check_file_id now).1 =
      (none, none, none) ∧
    (insert_check_link st chat_id username check_link check_file_id now).2.checks =
      st.checks ∧
    (insert_check_link st chat_id username check_link check_file_id
        now).2.cache_timestamp = st.cache_timestamp ∧
    (insert_check_link st chat_id username check_link check_file_id
        now).2.sheet_cache = st.sheet_cache ∧
    (insert_check_link st chat_id username check_link check_file_id
        now).2.sheet.paid_usernames = paidAppend st.sheet.paid_usernames username := by
  simp [insert_check_link, h]

/-- Witness for C3 at a concrete state with no matching `checks` row. -/
theorem C3_notfound_witness :
    findCheck [mkCheckRow 9 "zed" 0 1 50 0] 1 = none ∧
    ((insert_check_link ⟨[mkCheckRow 9 "zed" 0 1 50 0], ⟨1, 50, ["zed"], [], 0⟩,
        none, 3⟩ 1 "alice" "url" "fid" 4).1 = (none, none, none) ∧
    (insert_check_link ⟨[mkCheckRow 9 "zed" 0 1 50 0], ⟨1, 50, ["zed"], [], 0⟩,
        none, 3⟩ 1 "alice" "url" "fid" 4).2.checks = [mkCheckRow 9 "zed" 0 1 50 0] ∧
    (insert_check_link ⟨[mkCheckRow 9 "zed" 0 1 50 0], ⟨1, 50, ["zed"], [], 0⟩,
        none, 3⟩ 1 "alice" "url" "fid" 4).2.cache_timestamp = 3 ∧
    (insert_check_link ⟨[mkCheckRow 9 "zed" 0 1 50 0], ⟨1, 50, ["zed"], [], 0⟩,
        none, 3⟩ 1 "alice" "url" "fid" 4).2.sheet_cache = none ∧
    (insert_check_link ⟨[mkCheckRow 9 "zed" 0 1 50 0], ⟨1, 50, ["zed"], [], 0⟩,
        none, 3⟩ 1 "alice" "url" "fid" 4).2.sheet.paid_usernames =
      paidAppend [] "alice") :=
  ⟨by decide,
   C3_notfound ⟨[mkCheckRow 9 "zed" 0 1 50 0], ⟨1, 50, ["zed"], [], 0⟩, none, 3⟩
     1 "alice" "url" "fid" 4 (by decide)⟩

/-- Claim C5: for a participant with an existing Assignment, marking
submitted twice leaves the durable paid set containing the identifier
exactly once — the guarded `array_append` is a no-op on an already-present
key.  The paid set is a set by the data model: the identifier occurs at most
once beforehand. -/
theorem C5_paid_set_idempotent (st : DBState) (chat_id : ℤ)
    (username l1 f1 l2 f2 : String) (n1 n2 : ℕ)
    ( _hrow : (findCheck st.checks chat_id).isSome = true)
    (hset : st.sheet.paid_usernames.count username ≤ 1) :
    ((insert_check_link (insert_check_link st chat_id username l1 f1 n1).2
        chat_id username l2 f2 n2).2).sheet.paid_usernames.count username = 1 := by
  rw [insert_check_link_paid, insert_check_link_paid]
  rw [show paidAppend (paidAppend st.sheet.paid_usernames username) username =
      paidAppend st.sheet.paid_usernames username from
    if_pos (mem_paidAppend_self _ _)]
  exact count_paidAppend_self _ _ hset

/-- Witness for C5: one Assignment row, an initially empty paid set, two
submissions. -/
theorem C5_paid_set_idempotent_witness :
    ((findCheck [mkCheckRow 7 "alice" 0 1 100 0] 7).isSome = true ∧
      ([] : List String).count "alice" ≤ 1) ∧
    ((insert_check_link (insert_check_link
        ⟨[mkCheckRow 7 "alice" 0 1 100 0], ⟨1, 100, ["alice"], [], 0⟩, none, 0⟩
        7 "alice" "u1" "f1" 1).2
        7 "alice" "u2" "f2" 2).2).sheet.paid_usernames.count "alice" = 1 :=
  ⟨⟨by decide, by decide⟩,
   C5_paid_set_idempotent
     ⟨[mkCheckRow 7 "alice" 0 1 100 0], ⟨1, 100, ["alice"], [], 0⟩, none, 0⟩
     7 "alice" "u1" "f1" "u2" "f2" 1 2 (by decide) (by decide)⟩

/-- Claim C7: after the invalidation done by `insert_check_link`
(`_cache_timestamp = 0`), the next `_get_cached_sheet_data` reloads from the
durable row — returning exactly the current durable data — even when the old
timestamp was still within TTL; without the invalidation the same call would
have served the cached dict.  The hypothesis `ttl ≤ now` models the wall
clock: `time.time()` (seconds since 1970) always exceeds the configured
TTL. -/
theorem C7_invalidate_reload (st : DBState) (ttl now : ℕ)
    (hclock : ttl ≤ now) (hfresh : now - st.cache_timestamp < ttl) :
    (_get_cached_sheet_data (invalidate st) ttl now).1 = sheetDataOfRow st.sheet ∧
    ∀ c, st.sheet_cache = some c → (_get_cached_sheet_data st ttl now).1 = c := by
  constructor
  · have hstale : ¬(now < ttl) := by omega
    rcases hc : st.sheet_cache with _ | c <;>
      simp [_get_cached_sheet_data, invalidate, hc, hstale]
  · intro c hc
    simp [_get_cached_sheet_data, hc, hfresh]

/-- Witness for C7: a cached dict loaded at time 40 that differs from the
durable row, TTL 30, current time 50 (so the cache is still fresh:
50 - 40 = 10 < 30). -/
theorem C7_invalidate_reload_witness :
    (30 ≤ 50 ∧ 50 - (40 : ℕ) < 30) ∧
    ((_get_cached_sheet_data (invalidate
        ⟨[], ⟨2, 200, ["alice", "bob"], ["alice"], 9⟩,
          some ⟨1, 100, ["alice"], some []⟩, 40⟩) 30 50).1 =
      sheetDataOfRow ⟨2, 200, ["alice", "bob"], ["alice"], 9⟩ ∧
    ∀ c, (some ⟨1, 100, ["alice"], some []⟩ : Option SheetData) = some c →
      (_get_cached_sheet_data
        ⟨[], ⟨2, 200, ["alice", "bob"], ["alice"], 9⟩,
          some ⟨1, 100, ["alice"], some []⟩, 40⟩ 30 50).1 = c) :=
  ⟨⟨by decide, by decide⟩,
   C7_invalidate_reload
     ⟨[], ⟨2, 200, ["alice", "bob"], ["alice"], 9⟩,
       some ⟨1, 100, ["alice"], some []⟩, 40⟩ 30 50 (by decide) (by decide)⟩

end TgBot
